import Mathlib

/-!
Verification development for the ISM Search POC sample-data generator
(`generate_ism_data.py`).

The script fabricates synthetic rows for three tables (`location_master`,
`skuloc`, `rsvehr`) and serializes them as SQL INSERT statements into a
single text artifact.  We embed the generator shallowly:

* every call of the Python `random` module becomes a field of an explicit
  per-iteration draw record, supplied by an oracle function; a `Valid…`
  predicate records the range each draw is guaranteed to lie in
  (`random.randint(a, b)` is inclusive on both ends, `random.random()`
  lies in `[0, 1)`, `random.uniform(a, b)` lies between `a` and `b`,
  `random.choice` picks a member, `random.sample(pop, k)` returns `k`
  distinct members);
* `datetime.date` values become proleptic-Gregorian day ordinals
  (days since 1970-01-01), `datetime.datetime` values become second
  counts since the epoch (the script formats timestamps with
  `%Y-%m-%d %H:%M:%S`, i.e. at second resolution); the ambient clock
  (`datetime.datetime.now()`) is an explicit parameter;
* `random.choice` on an empty list raises `IndexError`; the reservation
  generator therefore returns `Except`, and the whole-file driver
  `generate_all` returns the truncated artifact text on failure.
-/

namespace ISM

/-! ### Calendar arithmetic (mirroring Python `datetime`)

`daysFromCivil y m d` is the number of days from 1970-01-01 to the civil
date `y-m-d` (proleptic Gregorian), and `civilFromDays` is its inverse;
both use the standard closed-form algorithms. -/

def daysFromCivil (y m d : Int) : Int :=
  let y' : Int := if m ≤ 2 then y - 1 else y
  let era : Int := Int.fdiv y' 400
  let yoe : Int := y' - era * 400
  let mp : Int := Int.fmod (m + 9) 12
  let doy : Int := (153 * mp + 2) / 5 + d - 1
  let doe : Int := yoe * 365 + yoe / 4 - yoe / 100 + doy
  era * 146097 + doe - 719468

def civilFromDays (z0 : Int) : Int × Int × Int :=
  let z : Int := z0 + 719468
  let era : Int := Int.fdiv z 146097
  let doe : Int := z - era * 146097
  let yoe : Int := (doe - doe / 1460 + doe / 36524 - doe / 146096) / 365
  let y : Int := yoe + era * 400
  let doy : Int := doe - (365 * yoe + yoe / 4 - yoe / 100)
  let mp : Int := (5 * doy + 2) / 153
  let d : Int := doy - (153 * mp + 2) / 5 + 1
  let m : Int := if mp < 10 then mp + 3 else mp - 9
  (if m ≤ 2 then y + 1 else y, m, d)

/-- Zero-padded two-digit rendering, as `strftime` does for `%m %d %H %M %S`. -/
def pad2 (n : Int) : String :=
  if n < 10 then "0" ++ toString n else toString n

/-- Zero-padded four-digit year rendering (`%Y`). -/
def pad4 (n : Int) : String :=
  if n < 10 then "000" ++ toString n
  else if n < 100 then "00" ++ toString n
  else if n < 1000 then "0" ++ toString n
  else toString n

/-- `str(date)` in Python: ISO `YYYY-MM-DD`, from a day ordinal. -/
def fmtDate (ord : Int) : String :=
  let c := civilFromDays ord
  pad4 c.1 ++ "-" ++ pad2 c.2.1 ++ "-" ++ pad2 c.2.2

/-- `strftime("%Y-%m-%d %H:%M:%S")` (also `str(datetime)` at whole-second
resolution), from a count of seconds since the epoch. -/
def fmtDateTime (ts : Int) : String :=
  let days : Int := Int.fdiv ts 86400
  let secs : Int := Int.fmod ts 86400
  fmtDate days ++ " " ++ pad2 (secs / 3600) ++ ":" ++ pad2 (secs % 3600 / 60)
    ++ ":" ++ pad2 (secs % 60)

/-! ### Fixed vocabularies (`ISMDataGenerator.__init__`) -/

def store_names : List String :=
  ["Times Square", "Michigan Ave", "Beverly Hills", "Miami Beach",
   "Union Square", "Fashion Valley", "Galleria", "Town Center",
   "Fashion Island", "Garden State", "King of Prussia", "Aventura"]

def cities : List (String × String) :=
  [("New York", "NY"), ("Chicago", "IL"), ("Los Angeles", "CA"), ("Miami", "FL"),
   ("San Francisco", "CA"), ("Boston", "MA"), ("Seattle", "WA"), ("Dallas", "TX"),
   ("Atlanta", "GA"), ("Phoenix", "AZ"), ("Denver", "CO"), ("Portland", "OR")]

def regions : List String :=
  ["Northeast", "Midwest", "West Coast", "Southeast", "Southwest", "Northwest"]

def territories : List String := ["EAST", "CENTRAL", "WEST", "SOUTH"]

def channels : List String := ["D", "R"]

def reservation_types : List String := ["HR", "SR", "PR", "MR"]

def reservation_status : List String := ["A", "E", "C"]

def reservation_programs : List String := ["ECOMM", "BOPIS", "SHIP", "STORE", "EVENT"]

/-! ### Location generator (`generate_location_master_inserts`)

One `LocDraw` per loop iteration collects every `random` call of that
iteration, in source order. -/

structure LocDraw where
  cityIdx : Nat          -- random.choice(self.cities)
  yearOff : Nat          -- random.randint(0, 7)
  month : Nat            -- random.randint(1, 12)
  day : Nat              -- random.randint(1, 28)
  piOffset : Nat         -- random.randint(30, 365)
  nameIdx : Nat          -- random.choice(self.store_names)
  territoryIdx : Nat     -- random.choice(self.territories)
  regionNumber : Nat     -- random.randint(1, 5)
  regionIdx : Nat        -- random.choice(self.regions)
  districtNumber : Nat   -- random.randint(100, 500)
  districtNameNum : Nat  -- random.randint(1, 20)
  dcNum : Nat            -- random.randint(1, 5)
  whseNum : Nat          -- random.randint(1, 5)
  primServ : Nat         -- random.randint(1, 5)
  altServ : Nat          -- random.randint(1, 5)
  zip : Nat              -- random.randint(10000, 99999)
  telArea : Nat          -- random.randint(200, 999)
  telLast : Nat          -- random.randint(1000, 9999)
  deriving Repr, DecidableEq

def ValidLocDraw (d : LocDraw) : Prop :=
  d.cityIdx < cities.length ∧ d.yearOff ≤ 7 ∧
  1 ≤ d.month ∧ d.month ≤ 12 ∧ 1 ≤ d.day ∧ d.day ≤ 28 ∧
  30 ≤ d.piOffset ∧ d.piOffset ≤ 365 ∧
  d.nameIdx < store_names.length ∧ d.territoryIdx < territories.length ∧
  1 ≤ d.regionNumber ∧ d.regionNumber ≤ 5 ∧ d.regionIdx < regions.length ∧
  100 ≤ d.districtNumber ∧ d.districtNumber ≤ 500 ∧
  1 ≤ d.districtNameNum ∧ d.districtNameNum ≤ 20 ∧
  1 ≤ d.dcNum ∧ d.dcNum ≤ 5 ∧ 1 ≤ d.whseNum ∧ d.whseNum ≤ 5 ∧
  1 ≤ d.primServ ∧ d.primServ ≤ 5 ∧ 1 ≤ d.altServ ∧ d.altServ ≤ 5 ∧
  10000 ≤ d.zip ∧ d.zip ≤ 99999 ∧
  200 ≤ d.telArea ∧ d.telArea ≤ 999 ∧ 1000 ≤ d.telLast ∧ d.telLast ≤ 9999

instance (d : LocDraw) : Decidable (ValidLocDraw d) := by
  unfold ValidLocDraw; infer_instance

/-- One `location_master` row.  Dates are day ordinals.  Columns whose
value is a fixed literal in the script (`loc_currency`, `loc_country`,
`channel_name`, `comingled_dc_flag`, `country`, `updated_at`) appear
only in the rendered INSERT text. -/
structure LocationRow where
  loc_number : Nat
  loc_name : String
  loc_type : String
  short_desc : String
  loc_territory : String
  region_number : Nat
  region_name : String
  district_number : Nat
  district_name : String
  last_pi_date : Int
  frame_store_id : String
  frame_dc_id : String
  whse_id : String
  primary_serv_dc : Nat
  alternate_serv_dc : Nat
  city : String
  state : String
  zipCode : Nat
  telephone : String
  loc_open_date : Int
  deriving Repr, DecidableEq, Inhabited

def mkLocationRow (i : Nat) (d : LocDraw) : LocationRow :=
  let loc_number : Nat := 1000 + i
  let loc_type : String :=
    if i ≤ 40 then "STORE" else if i ≤ 45 then "DC" else "VENDOR"
  let cs : String × String := cities.getD d.cityIdx ("", "")
  let open_date : Int := daysFromCivil (2015 + (d.yearOff : Int)) d.month d.day
  let pi_date : Int := open_date + (d.piOffset : Int)
  { loc_number := loc_number
    loc_name := store_names.getD d.nameIdx ("") ++ " " ++ cs.1
    loc_type := loc_type
    short_desc := loc_type ++ " in " ++ cs.1
    loc_territory := territories.getD d.territoryIdx ("")
    region_number := d.regionNumber
    region_name := regions.getD d.regionIdx ("")
    district_number := d.districtNumber
    district_name := "District " ++ toString d.districtNameNum
    last_pi_date := pi_date
    frame_store_id := "ST" ++ toString loc_number
    frame_dc_id := "DC" ++ toString (2000 + d.dcNum)
    whse_id := "WH" ++ toString (2000 + d.whseNum)
    primary_serv_dc := 2000 + d.primServ
    alternate_serv_dc := 2000 + d.altServ
    city := cs.1
    state := cs.2
    zipCode := d.zip
    telephone := toString d.telArea ++ "-555-" ++ toString d.telLast
    loc_open_date := open_date }

/-- The location loop `for i in range(1, self.num_locations + 1)`,
producing the structured rows in order. -/
def generate_location_master_rows (n : Nat) (ds : Nat → LocDraw) : List LocationRow :=
  (List.range' 1 n).map (fun i => mkLocationRow i (ds i))

/-- `self.location_numbers` as accumulated during the location loop. -/
def location_numbers (n : Nat) : List Nat :=
  (List.range' 1 n).map (fun i => 1000 + i)

/-! ### Inventory generator (`generate_skuloc_inserts`) -/

/-- `self.sku_ids = [10000 + i for i in range(self.num_skus)]`. -/
def sku_ids (numSkus : Nat) : List Nat :=
  (List.range numSkus).map (fun i => 10000 + i)

/-- The `random` calls of one inner (sku, location) iteration, in source
order.  The five reserve draws are consulted only when
`reserveCoin < 0.3`; in the other branch the script draws nothing and
sets all five reserves to 0. -/
structure CellDraw where
  available : Nat     -- random.randint(0, 500)
  finExtra : Nat      -- random.randint(0, 50)
  reserveCoin : ℚ     -- random.random()
  pick : Nat          -- random.randint(0, min(20, available_qty))
  pack : Nat          -- random.randint(0, min(10, available_qty - ecomm_pick))
  merch : Nat         -- random.randint(0, min(15, available_qty - ecomm_pick - ecomm_pack))
  dotcom : Nat        -- random.randint(0, min(25, available_qty))
  retail : Nat        -- random.randint(0, min(30, available_qty))
  channelCoin : ℚ     -- random.random()  (channel present with probability 0.8)
  channelIdx : Nat    -- random.choice(self.channels)
  snb : Nat           -- random.randint(0, 10)
  lost : Nat          -- random.randint(0, 5)
  pickReserve : Nat   -- random.randint(0, 20)
  comingleCoin : ℚ    -- random.random()  (is_comingle = 1 with probability 0.2)
  oob : Nat           -- random.randint(0, 10)
  inTransit : Nat     -- random.randint(0, 50)
  deriving Repr, DecidableEq

def ValidCell (c : CellDraw) : Prop :=
  c.available ≤ 500 ∧ c.finExtra ≤ 50 ∧
  0 ≤ c.reserveCoin ∧ c.reserveCoin < 1 ∧
  (c.reserveCoin < 3/10 →
    c.pick ≤ min 20 c.available ∧
    c.pack ≤ min 10 (c.available - c.pick) ∧
    c.merch ≤ min 15 (c.available - c.pick - c.pack) ∧
    c.dotcom ≤ min 25 c.available ∧
    c.retail ≤ min 30 c.available) ∧
  0 ≤ c.channelCoin ∧ c.channelCoin < 1 ∧ c.channelIdx < channels.length ∧
  c.snb ≤ 10 ∧ c.lost ≤ 5 ∧ c.pickReserve ≤ 20 ∧
  0 ≤ c.comingleCoin ∧ c.comingleCoin < 1 ∧
  c.oob ≤ 10 ∧ c.inTransit ≤ 50

instance (c : CellDraw) : Decidable (ValidCell c) := by
  unfold ValidCell; infer_instance

/-- The `random` calls of one outer (per-sku) iteration: the size draw
`random.uniform(0.1, self.skuloc_density)`, the resulting
`random.sample(self.location_numbers, num_locations)`, and the inner
draws indexed by position within the sample. -/
structure SkuDraw where
  u : ℚ
  sample : List Nat
  cell : Nat → CellDraw

/-- `random.uniform(0.1, density)` lies between its two arguments (in
either order), `num_locations = int(len(location_numbers) * u)`
truncates the non-negative product, and `random.sample` returns that
many distinct members of the population. -/
def ValidSkuDraw (locs : List Nat) (density : ℚ) (s : SkuDraw) : Prop :=
  min (1/10) density ≤ s.u ∧ s.u ≤ max (1/10) density ∧
  s.sample.length = (⌊(locs.length : ℚ) * s.u⌋).toNat ∧
  s.sample.Nodup ∧ (∀ x ∈ s.sample, x ∈ locs) ∧
  (∀ j, ValidCell (s.cell j))

/-- One `skuloc` row.  `channel` is drawn by the script (line 134) but
does not appear in the INSERT column list; we keep it for fidelity to
the generation step. -/
structure SkulocRow where
  sku_id : Nat
  location_number : Nat
  snb_qty : Nat
  ecomm_pick_reserve : Nat
  ecomm_pack_reserve : Nat
  available_qty : Nat
  merch_reserve_qty : Nat
  lost_found_qty : Nat
  pick_reserve_qty : Nat
  is_comingle : Nat
  financial_onhand_qty : Nat
  oob_qty : Nat
  total_in_transit : Nat
  dotcom_reserve : Nat
  retail_reserve : Nat
  channel : Option String
  deriving Repr, DecidableEq

def mkSkulocRow (sku loc : Nat) (c : CellDraw) : SkulocRow :=
  let available_qty : Nat := c.available
  let financial_onhand : Nat := available_qty + c.finExtra
  -- `if random.random() < 0.3` takes the reserve branch; otherwise all
  -- five reserve fields are 0.
  { sku_id := sku
    location_number := loc
    snb_qty := c.snb
    ecomm_pick_reserve := if c.reserveCoin < 3/10 then c.pick else 0
    ecomm_pack_reserve := if c.reserveCoin < 3/10 then c.pack else 0
    available_qty := available_qty
    merch_reserve_qty := if c.reserveCoin < 3/10 then c.merch else 0
    lost_found_qty := c.lost
    pick_reserve_qty := c.pickReserve
    is_comingle := if c.comingleCoin < 1/5 then 1 else 0
    financial_onhand_qty := financial_onhand
    oob_qty := c.oob
    total_in_transit := c.inTransit
    dotcom_reserve := if c.reserveCoin < 3/10 then c.dotcom else 0
    retail_reserve := if c.reserveCoin < 3/10 then c.retail else 0
    channel := if c.channelCoin < 4/5 then some (channels.getD c.channelIdx ("")) else none }

/-- The skuloc double loop: for each sku id in order, one row per
selected location, in the order `random.sample` returned them. -/
def generate_skuloc_rows (numSkus : Nat) (locs : List Nat) (ds : Nat → SkuDraw) :
    List SkulocRow :=
  (sku_ids numSkus).flatMap (fun sku =>
    ((ds sku).sample.enum).map (fun p => mkSkulocRow sku p.2 ((ds sku).cell p.1)))

/-! ### Reservation generator (`generate_rsvehr_inserts`)

`random.choice(seq)` raises `IndexError` on an empty sequence; on a
non-empty one it returns a member.  We model the chosen index as an
oracle field and the failure as `Except.error`. -/

/-- `random.choice`: error on the empty list, otherwise a member (the
oracle index, clamped to the head for out-of-range oracles, which
`ValidRsvDraw` rules out). -/
def choiceAt (xs : List α) (i : Nat) : Except Unit α :=
  match xs with
  | [] => .error ()
  | x :: _ => .ok (xs.getD i x)

structure RsvDraw where
  skuIdx : Nat       -- random.choice(self.sku_ids)
  locIdx : Nat       -- random.choice(self.location_numbers)
  startOff : Nat     -- random.randint(0, 30)   (days subtracted from now)
  endOff : Nat       -- random.randint(1, 14)   (days added to start)
  channelIdx : Nat   -- random.choice(self.channels)
  atsCoin : ℚ        -- random.random()  (ats_flag = Y with probability 0.7)
  typeIdx : Nat      -- random.choice(self.reservation_types)
  statusIdx : Nat    -- random.choice(self.reservation_status)
  programIdx : Nat   -- random.choice(self.reservation_programs)
  qty : Nat          -- random.randint(1, 50)
  division : Nat     -- random.randint(1, 5)
  userNum : Nat      -- random.randint(100, 999)
  deriving Repr, DecidableEq

def ValidRsvDraw (numSkuIds numLocs : Nat) (d : RsvDraw) : Prop :=
  d.skuIdx < numSkuIds ∧ d.locIdx < numLocs ∧
  d.startOff ≤ 30 ∧ 1 ≤ d.endOff ∧ d.endOff ≤ 14 ∧
  d.channelIdx < channels.length ∧ 0 ≤ d.atsCoin ∧ d.atsCoin < 1 ∧
  d.typeIdx < reservation_types.length ∧
  d.statusIdx < reservation_status.length ∧
  d.programIdx < reservation_programs.length ∧
  1 ≤ d.qty ∧ d.qty ≤ 50 ∧ 1 ≤ d.division ∧ d.division ≤ 5 ∧
  100 ≤ d.userNum ∧ d.userNum ≤ 999

instance (n m : Nat) (d : RsvDraw) : Decidable (ValidRsvDraw n m d) := by
  unfold ValidRsvDraw; infer_instance

/-- One `rsvehr` row.  Timestamps are seconds since the epoch. -/
structure RsvRow where
  division_number : Nat
  location_number : Nat
  sku_id : Nat
  channel : String
  ats_flag : String
  reservation_type : String
  hard_reservation_start_ts : Int
  hard_reservation_end_ts : Int
  hard_reservation_qty : Nat
  reservation_status_code : String
  reservation_program : String
  reservation_user_id : String
  deriving Repr, DecidableEq

def mkRsvRow (sku loc : Nat) (d : RsvDraw) (now : Int) : RsvRow :=
  let start_date : Int := now - (d.startOff : Int) * 86400
  let end_date : Int := start_date + (d.endOff : Int) * 86400
  { division_number := d.division
    location_number := loc
    sku_id := sku
    channel := channels.getD d.channelIdx ("")
    ats_flag := if d.atsCoin < 7/10 then "Y" else "N"
    reservation_type := reservation_types.getD d.typeIdx ("")
    hard_reservation_start_ts := start_date
    hard_reservation_end_ts := end_date
    hard_reservation_qty := d.qty
    reservation_status_code := reservation_status.getD d.statusIdx ("")
    reservation_program := reservation_programs.getD d.programIdx ("")
    reservation_user_id := "USER" ++ toString d.userNum }

/-- The reservation loop body over the remaining iteration indices;
the first failing `random.choice` aborts before appending any further
row. -/
def rsvehrLoop (skus locs : List Nat) (ds : Nat → RsvDraw) (now : Int) :
    List Nat → Except Unit (List RsvRow)
  | [] => .ok []
  | i :: rest =>
    match choiceAt skus (ds i).skuIdx with
    | .error e => .error e
    | .ok sku =>
      match choiceAt locs (ds i).locIdx with
      | .error e => .error e
      | .ok loc =>
        match rsvehrLoop skus locs ds now rest with
        | .error e => .error e
        | .ok rows => .ok (mkRsvRow sku loc (ds i) now :: rows)

/-- `for i in range(1, self.num_reserves + 1)`. -/
def generate_rsvehr_rows (numReserves : Nat) (skus locs : List Nat)
    (ds : Nat → RsvDraw) (now : Int) : Except Unit (List RsvRow) :=
  rsvehrLoop skus locs ds now (List.range' 1 numReserves)

/-! ### Serialization (`generate_all` and the three f-string templates) -/

/-- The SQL single-quote character (written via its code point). -/
def sq : String := String.singleton (Char.ofNat 39)

/-- A single-quoted SQL literal value. -/
def qv (s : String) : String := sq ++ s ++ sq

def renderLocationInsert (r : LocationRow) : String :=
  "INSERT INTO location_master (\n" ++
  "    loc_number, loc_name, loc_type, short_desc, loc_territory, loc_currency,\n" ++
  "    loc_country, channel_name, region_number, region_name, district_number,\n" ++
  "    district_name, last_pi_date, frame_store_id, frame_dc_id, whse_id,\n" ++
  "    comingled_dc_flag, primary_serv_dc, alternate_serv_dc, city, state,\n" ++
  "    zipCode, country, telephone, updated_at, loc_open_date\n" ++
  ") VALUES (\n" ++
  "    " ++ toString r.loc_number ++ ",\n" ++
  "    " ++ qv r.loc_name ++ ",\n" ++
  "    " ++ qv r.loc_type ++ ",\n" ++
  "    " ++ qv r.short_desc ++ ",\n" ++
  "    " ++ qv r.loc_territory ++ ",\n" ++
  "    " ++ qv ("USD") ++ ",\n" ++
  "    " ++ qv ("US") ++ ",\n" ++
  "    " ++ qv ("RETAIL") ++ ",\n" ++
  "    " ++ qv (toString r.region_number) ++ ",\n" ++
  "    " ++ qv r.region_name ++ ",\n" ++
  "    " ++ qv (toString r.district_number) ++ ",\n" ++
  "    " ++ qv r.district_name ++ ",\n" ++
  "    " ++ qv (fmtDate r.last_pi_date) ++ ",\n" ++
  "    " ++ qv r.frame_store_id ++ ",\n" ++
  "    " ++ qv r.frame_dc_id ++ ",\n" ++
  "    " ++ qv r.whse_id ++ ",\n" ++
  "    " ++ qv ("N") ++ ",\n" ++
  "    " ++ qv (toString r.primary_serv_dc) ++ ",\n" ++
  "    " ++ qv (toString r.alternate_serv_dc) ++ ",\n" ++
  "    " ++ qv r.city ++ ",\n" ++
  "    " ++ qv r.state ++ ",\n" ++
  "    " ++ qv (toString r.zipCode) ++ ",\n" ++
  "    " ++ qv ("USA") ++ ",\n" ++
  "    " ++ qv r.telephone ++ ",\n" ++
  "    NOW(),\n" ++
  "    " ++ qv (fmtDate r.loc_open_date) ++ "\n" ++
  ");"

def renderSkulocInsert (r : SkulocRow) : String :=
  "INSERT INTO skuloc (\n" ++
  "    sku_id, location_number, snb_qty, ecomm_pick_reserve, ecomm_pack_reserve,\n" ++
  "    available_qty, merch_reserve_qty, lost_found_qty, pick_reserve_qty,\n" ++
  "    is_comingle, financial_onhand_qty, oob_qty, total_in_transit,\n" ++
  "    dotcom_reserve, retail_reserve, updated_ts\n" ++
  ") VALUES (\n" ++
  "    " ++ toString r.sku_id ++ ",\n" ++
  "    " ++ toString r.location_number ++ ",\n" ++
  "    " ++ toString r.snb_qty ++ ",\n" ++
  "    " ++ toString r.ecomm_pick_reserve ++ ",\n" ++
  "    " ++ toString r.ecomm_pack_reserve ++ ",\n" ++
  "    " ++ toString r.available_qty ++ ",\n" ++
  "    " ++ toString r.merch_reserve_qty ++ ",\n" ++
  "    " ++ toString r.lost_found_qty ++ ",\n" ++
  "    " ++ toString r.pick_reserve_qty ++ ",\n" ++
  "    " ++ toString r.is_comingle ++ ",\n" ++
  "    " ++ toString r.financial_onhand_qty ++ ",\n" ++
  "    " ++ toString r.oob_qty ++ ",\n" ++
  "    " ++ toString r.total_in_transit ++ ",\n" ++
  "    " ++ toString r.dotcom_reserve ++ ",\n" ++
  "    " ++ toString r.retail_reserve ++ ",\n" ++
  "    NOW()\n" ++
  ");"

def renderRsvehrInsert (r : RsvRow) : String :=
  "INSERT INTO rsvehr (\n" ++
  "    division_number, location_number, sku_id, channel, ats_flag,\n" ++
  "    reservation_type, hard_reservation_start_ts, hard_reservation_end_ts,\n" ++
  "    hard_reservation_qty, hard_reservation_start_time_upd,\n" ++
  "    hard_reservation_end_time_upd, reservation_status, reservation_program,\n" ++
  "    reservation_user_id, reservation_last_modified_ts\n" ++
  ") VALUES (\n" ++
  "    " ++ toString r.division_number ++ ",\n" ++
  "    " ++ toString r.location_number ++ ",\n" ++
  "    " ++ toString r.sku_id ++ ",\n" ++
  "    " ++ qv r.channel ++ ",\n" ++
  "    " ++ qv r.ats_flag ++ ",\n" ++
  "    " ++ qv r.reservation_type ++ ",\n" ++
  "    " ++ qv (fmtDateTime r.hard_reservation_start_ts) ++ ",\n" ++
  "    " ++ qv (fmtDateTime r.hard_reservation_end_ts) ++ ",\n" ++
  "    " ++ toString r.hard_reservation_qty ++ ",\n" ++
  "    " ++ qv (fmtDateTime r.hard_reservation_start_ts) ++ ",\n" ++
  "    " ++ qv (fmtDateTime r.hard_reservation_end_ts) ++ ",\n" ++
  "    " ++ qv r.reservation_status_code ++ ",\n" ++
  "    " ++ qv r.reservation_program ++ ",\n" ++
  "    " ++ qv r.reservation_user_id ++ ",\n" ++
  "    NOW()\n" ++
  ");"

/-- The mutable configuration fields of `ISMDataGenerator`. -/
structure Config where
  num_locations : Nat
  num_skus : Nat
  skuloc_density : ℚ
  num_reserves : Nat
  deriving Repr, DecidableEq

/-- All random draws of one whole run, per generation stage. -/
structure Draws where
  loc : Nat → LocDraw
  sku : Nat → SkuDraw
  rsv : Nat → RsvDraw

def ValidDraws (cfg : Config) (ds : Draws) : Prop :=
  (∀ i, ValidLocDraw (ds.loc i)) ∧
  (∀ s, ValidSkuDraw (location_numbers cfg.num_locations) cfg.skuloc_density (ds.sku s)) ∧
  (∀ i, ValidRsvDraw cfg.num_skus cfg.num_locations (ds.rsv i))

/-- `generate_all`: assemble the output artifact text.  The writes
happen in source order, so when the reservation stage raises (empty
`random.choice` pool) the artifact written so far — header, location
and skuloc sections, and the RSVEHR banner — is returned as the
`error` payload (the file is left truncated, without rows or
`COMMIT;`). -/
def generate_all (cfg : Config) (ds : Draws) (now : Int) : Except String String :=
  let locRows := generate_location_master_rows cfg.num_locations ds.loc
  let locNums := locRows.map (fun r => r.loc_number)
  let skuRows := generate_skuloc_rows cfg.num_skus locNums ds.sku
  let skus := sku_ids cfg.num_skus
  let header : String :=
    "-- ISM Search POC Sample Data\n" ++
    "-- Generated on: " ++ fmtDateTime now ++ "\n" ++
    "-- Configuration:\n" ++
    "-- - Locations: " ++ toString cfg.num_locations ++ "\n" ++
    "-- - SKUs: " ++ toString cfg.num_skus ++ "\n" ++
    "-- - Reserve records: " ++ toString cfg.num_reserves ++ "\n\n" ++
    "-- Optional: Clean existing data\n" ++
    "-- TRUNCATE TABLE rsvehr;\n" ++
    "-- TRUNCATE TABLE skuloc;\n" ++
    "-- TRUNCATE TABLE location_master;\n\n"
  let banner : String := "-- ========================================\n"
  let part1 : String := header ++ banner ++ "-- Location Master Data\n" ++ banner ++ "\n" ++
    String.join (locRows.map (fun r => renderLocationInsert r ++ "\n\n"))
  let part2 : String := part1 ++ "\n" ++ banner ++ "-- SKULOC Data\n" ++ banner ++ "\n" ++
    String.join (skuRows.map (fun r => renderSkulocInsert r ++ "\n\n"))
  let part3 : String := part2 ++ "\n" ++ banner ++ "-- RSVEHR Data\n" ++ banner ++ "\n"
  match generate_rsvehr_rows cfg.num_reserves skus locNums ds.rsv now with
  | .error _ => .error part3
  | .ok rrows =>
    .ok (part3 ++ String.join (rrows.map (fun r => renderRsvehrInsert r ++ "\n\n")) ++
      "\n-- End of sample data\n" ++ "COMMIT;\n")

/-! ### Spec-side predicate for the category-assignment claim

The spec states the positional category split as proportional to the
configured count N (first 80 % of N, next 10 %, remainder).  This
predicate is written from those words, to be compared with the
generator; the source itself uses the fixed thresholds 40 and 45. -/

def proportionalCategoryClaim (n : Nat) (rows : List LocationRow) : Prop :=
  ∀ i, i < rows.length →
    (rows.getD i default).loc_type =
      (if 10 * (i + 1) ≤ 8 * n then "STORE"        -- position within the first 80 % of N
       else if 10 * (i + 1) ≤ 9 * n then "DC"      -- within the next 10 %
       else "VENDOR")                               -- the remaining 10 %

instance (n : Nat) (rows : List LocationRow) :
    Decidable (proportionalCategoryClaim n rows) := by
  unfold proportionalCategoryClaim; infer_instance

/-! ### Concrete draws used to instantiate hypotheses -/

def locDraw0 : LocDraw :=
  { cityIdx := 0, yearOff := 0, month := 1, day := 1, piOffset := 30,
    nameIdx := 0, territoryIdx := 0, regionNumber := 1, regionIdx := 0,
    districtNumber := 100, districtNameNum := 1, dcNum := 1, whseNum := 1,
    primServ := 1, altServ := 1, zip := 10000, telArea := 200, telLast := 1000 }

def cell0 : CellDraw :=
  { available := 0, finExtra := 0, reserveCoin := 1/2, pick := 0, pack := 0,
    merch := 0, dotcom := 0, retail := 0, channelCoin := 0, channelIdx := 0,
    snb := 0, lost := 0, pickReserve := 0, comingleCoin := 0, oob := 0,
    inTransit := 0 }

/-- Draws exhibiting the independent capping of `dotcom_reserve` and
`retail_reserve`: with `available_qty = 20`, the script may draw
`ecomm_pick = 20` (≤ min(20, 20)), `dotcom_reserve = 20` (≤ min(25, 20))
and `retail_reserve = 20` (≤ min(30, 20)) in the same row. -/
def cellBad : CellDraw :=
  { available := 20, finExtra := 0, reserveCoin := 0, pick := 20, pack := 0,
    merch := 0, dotcom := 20, retail := 20, channelCoin := 0, channelIdx := 0,
    snb := 0, lost := 0, pickReserve := 0, comingleCoin := 0, oob := 0,
    inTransit := 0 }

def skuDraw0 : SkuDraw := { u := 1/10, sample := [], cell := fun _ => cell0 }

def skuDrawBad : SkuDraw := { u := 1/2, sample := [1001], cell := fun _ => cellBad }

/-- A sku draw selecting the single location of a one-location run. -/
def skuDraw1 : SkuDraw := { u := 1, sample := [1001], cell := fun _ => cell0 }

def rsvDraw0 : RsvDraw :=
  { skuIdx := 0, locIdx := 0, startOff := 0, endOff := 1, channelIdx := 0,
    atsCoin := 0, typeIdx := 0, statusIdx := 0, programIdx := 0, qty := 1,
    division := 1, userNum := 100 }

def draws0 : Draws :=
  { loc := fun _ => locDraw0, sku := fun _ => skuDraw0, rsv := fun _ => rsvDraw0 }

def cfg0 : Config :=
  { num_locations := 0, num_skus := 0, skuloc_density := 7/10, num_reserves := 0 }

/-- A configuration with empty id pools but a positive reservation
count: the reservation stage must fail. -/
def cfgBad : Config :=
  { num_locations := 0, num_skus := 0, skuloc_density := 7/10, num_reserves := 1 }

/-! ### Validity of the concrete draws -/

theorem locDraw0_valid : ValidLocDraw locDraw0 := by decide

theorem cell0_valid : ValidCell cell0 := by
  unfold ValidCell cell0; norm_num [channels]

theorem cellBad_valid : ValidCell cellBad := by
  unfold ValidCell cellBad; norm_num [channels]

theorem rsvDraw0_valid : ValidRsvDraw 1 1 rsvDraw0 := by
  unfold ValidRsvDraw rsvDraw0; norm_num [channels, reservation_types,
    reservation_status, reservation_programs]

/-! ## Theorems -/

/-- C1: for every configured location count N ≥ 0, the location
generator produces exactly N records whose identifiers are the
sequential values 1001, …, 1000 + N (base 1000), each unique and
assigned in strictly increasing order; N = 0 yields the empty
sequence. -/
theorem location_generator_sequential_ids (n : Nat) (ds : Nat → LocDraw) :
    (generate_location_master_rows n ds).length = n ∧
    (generate_location_master_rows n ds).map (fun r => r.loc_number) = List.range' 1001 n ∧
    ((generate_location_master_rows n ds).map (fun r => r.loc_number)).Nodup ∧
    List.Pairwise (· < ·) ((generate_location_master_rows n ds).map (fun r => r.loc_number)) ∧
    (n = 0 → generate_location_master_rows n ds = []) := by
  have hmap : (generate_location_master_rows n ds).map (fun r => r.loc_number)
      = List.range' 1001 n := by
    unfold generate_location_master_rows
    rw [List.map_map]
    have hfun : ((fun r : LocationRow => r.loc_number) ∘ fun i => mkLocationRow i (ds i))
        = fun i => 1000 + i := rfl
    rw [hfun, List.map_add_range']
  refine ⟨?_, hmap, ?_, ?_, ?_⟩
  · unfold generate_location_master_rows
    simp [List.length_range']
  · rw [hmap]; exact List.nodup_range' 1001 n
  · rw [hmap]; exact List.pairwise_lt_range' 1001 n
  · intro h; subst h; rfl

/-- C2 counterexample: with N = 10 the proportional split of the spec
would make only the first 8 locations STORE, but the fixed
thresholds make the 9th location STORE as well. -/
theorem location_category_not_proportional :
    ¬ proportionalCategoryClaim 10
        (generate_location_master_rows 10 (fun _ => locDraw0)) := by
  decide

/-- C2 (amended): category assignment is positional with fixed absolute
thresholds — loop indices 1–40 yield STORE, 41–45 yield DC, 46 and
beyond yield VENDOR, regardless of N; this coincides with an
80 % / 10 % / 10 % split only when N = 50. -/
theorem location_category_fixed_thresholds (n : Nat) (ds : Nat → LocDraw)
    (i : Nat) (h : i < n) :
    ((generate_location_master_rows n ds).getD i default).loc_type =
      (if i + 1 ≤ 40 then "STORE" else if i + 1 ≤ 45 then "DC" else "VENDOR") := by
  have hlen : (generate_location_master_rows n ds).length = n := by
    unfold generate_location_master_rows
    simp [List.length_range']
  have h' : i < (generate_location_master_rows n ds).length := by
    rw [hlen]; exact h
  rw [List.getD_eq_getElem _ _ h']
  unfold generate_location_master_rows
  simp only [List.getElem_map, List.getElem_range']
  have harith : 1 + 1 * i = i + 1 := by omega
  rw [harith]
  rfl

/-- C2 witness for the amended theorem, at N = 50, index 44 (the 45th
location, a DC). -/
theorem location_category_fixed_thresholds_witness :
    ((generate_location_master_rows 50 (fun _ => locDraw0)).getD 44 default).loc_type =
      (if 44 + 1 ≤ 40 then "STORE" else if 44 + 1 ≤ 45 then "DC" else "VENDOR") :=
  location_category_fixed_thresholds 50 (fun _ => locDraw0) 44 (by decide)

/-- C5: for every generated location record, the derived last-inventory
date is the open date plus an offset of 30–365 days, hence strictly
after the open date and at most 365 days after it. -/
theorem location_pi_date_after_open_date (n : Nat) (ds : Nat → LocDraw)
    (hv : ∀ i, ValidLocDraw (ds i)) :
    ∀ r ∈ generate_location_master_rows n ds,
      r.loc_open_date + 30 ≤ r.last_pi_date ∧
      r.loc_open_date < r.last_pi_date ∧
      r.last_pi_date ≤ r.loc_open_date + 365 := by
  intro r hr
  unfold generate_location_master_rows at hr
  rw [List.mem_map] at hr
  obtain ⟨i, _, rfl⟩ := hr
  obtain ⟨_, _, _, _, _, _, h30, h365, _⟩ := hv i
  simp only [mkLocationRow]
  refine ⟨?_, ?_, ?_⟩ <;> omega

/-- C5 witness at N = 1 with concrete draws. -/
theorem location_pi_date_after_open_date_witness :
    (mkLocationRow 1 locDraw0).loc_open_date + 30 ≤ (mkLocationRow 1 locDraw0).last_pi_date ∧
    (mkLocationRow 1 locDraw0).loc_open_date < (mkLocationRow 1 locDraw0).last_pi_date ∧
    (mkLocationRow 1 locDraw0).last_pi_date ≤ (mkLocationRow 1 locDraw0).loc_open_date + 365 :=
  location_pi_date_after_open_date 1 (fun _ => locDraw0) (fun _ => locDraw0_valid)
    (mkLocationRow 1 locDraw0) (by decide)

/-! ### Helper lemmas for the skuloc generator -/

theorem mem_generate_skuloc_rows {numSkus : Nat} {locs : List Nat}
    {ds : Nat → SkuDraw} {r : SkulocRow}
    (hr : r ∈ generate_skuloc_rows numSkus locs ds) :
    ∃ sku ∈ sku_ids numSkus, ∃ p ∈ (ds sku).sample.enum,
      r = mkSkulocRow sku p.2 ((ds sku).cell p.1) := by
  unfold generate_skuloc_rows at hr
  rw [List.mem_flatMap] at hr
  obtain ⟨sku, hsku, hr⟩ := hr
  rw [List.mem_map] at hr
  obtain ⟨p, hp, rfl⟩ := hr
  exact ⟨sku, hsku, p, hp, rfl⟩

/-- In the reserve branch the running budget depletes: pick ≤ 20∧avail,
pack fits the remainder after pick, merch the remainder after both;
dotcom and retail are each capped against the original available
quantity only. -/
theorem mkSkulocRow_reserve_facts (sku loc : Nat) (c : CellDraw) (hc : ValidCell c) :
    (mkSkulocRow sku loc c).ecomm_pick_reserve + (mkSkulocRow sku loc c).ecomm_pack_reserve
        + (mkSkulocRow sku loc c).merch_reserve_qty ≤ (mkSkulocRow sku loc c).available_qty ∧
    (mkSkulocRow sku loc c).dotcom_reserve ≤ (mkSkulocRow sku loc c).available_qty ∧
    (mkSkulocRow sku loc c).retail_reserve ≤ (mkSkulocRow sku loc c).available_qty := by
  obtain ⟨_, _, _, _, hres, _⟩ := hc
  by_cases h : c.reserveCoin < 3/10
  · obtain ⟨hpick, hpack, hmerch, hdot, hret⟩ := hres h
    simp only [mkSkulocRow, if_pos h]
    omega
  · simp only [mkSkulocRow, if_neg h]
    omega

theorem skuDrawBad_sample_row :
    generate_skuloc_rows 1 (location_numbers 2) (fun _ => skuDrawBad)
      = [mkSkulocRow 10000 1001 cellBad] := rfl

theorem skuDrawBad_valid : ValidSkuDraw (location_numbers 2) (7/10) skuDrawBad := by
  refine ⟨by norm_num [skuDrawBad], by norm_num [skuDrawBad], ?_, ?_, ?_, ?_⟩
  · show (1 : Nat) = (⌊((location_numbers 2).length : ℚ) * skuDrawBad.u⌋).toNat
    rw [show ((location_numbers 2).length : ℚ) * skuDrawBad.u = 1 by
      norm_num [location_numbers, skuDrawBad]]
    norm_num
  · show List.Nodup [1001]
    simp
  · intro x hx
    rw [show skuDrawBad.sample = [1001] from rfl, List.mem_singleton] at hx
    subst hx
    decide
  · intro j
    exact cellBad_valid

/-! ### Inventory-row theorems -/

/-- C4: for every generated skuloc row, the three budget-depleting
reserves satisfy ecomm_pick_reserve + ecomm_pack_reserve +
merch_reserve_qty ≤ available_qty. -/
theorem skuloc_depleting_reserves_bounded (numSkus : Nat) (locs : List Nat)
    (ds : Nat → SkuDraw) (hv : ∀ s j, ValidCell ((ds s).cell j)) :
    ∀ r ∈ generate_skuloc_rows numSkus locs ds,
      r.ecomm_pick_reserve + r.ecomm_pack_reserve + r.merch_reserve_qty
        ≤ r.available_qty := by
  intro r hr
  obtain ⟨sku, _, p, _, rfl⟩ := mem_generate_skuloc_rows hr
  exact (mkSkulocRow_reserve_facts sku p.2 _ (hv sku p.1)).1

/-- C4 witness: a concrete one-product run whose single row satisfies
the depleting-reserve bound. -/
theorem skuloc_depleting_reserves_bounded_witness :
    (mkSkulocRow 10000 1001 cellBad).ecomm_pick_reserve
        + (mkSkulocRow 10000 1001 cellBad).ecomm_pack_reserve
        + (mkSkulocRow 10000 1001 cellBad).merch_reserve_qty
      ≤ (mkSkulocRow 10000 1001 cellBad).available_qty :=
  skuloc_depleting_reserves_bounded 1 (location_numbers 2) (fun _ => skuDrawBad)
    (fun _ _ => cellBad_valid) (mkSkulocRow 10000 1001 cellBad)
    (by rw [skuDrawBad_sample_row]; exact List.mem_singleton_self _)

/-- C3 counterexample: a valid one-product run (available_qty = 20,
ecomm_pick = 20, dotcom_reserve = 20, retail_reserve = 20, each within
its own cap) whose five reserve fields sum to 60 > 20. -/
theorem skuloc_five_reserves_exceed_available :
    ValidSkuDraw (location_numbers 2) (7/10) skuDrawBad ∧
    ∃ r ∈ generate_skuloc_rows 1 (location_numbers 2) (fun _ => skuDrawBad),
      ¬ (r.ecomm_pick_reserve + r.ecomm_pack_reserve + r.merch_reserve_qty
          + r.dotcom_reserve + r.retail_reserve ≤ r.available_qty) := by
  refine ⟨skuDrawBad_valid, mkSkulocRow 10000 1001 cellBad, ?_, ?_⟩
  · rw [skuDrawBad_sample_row]; exact List.mem_singleton_self _
  · have h : cellBad.reserveCoin < 3/10 := by norm_num [cellBad]
    simp only [mkSkulocRow, if_pos h]
    norm_num [cellBad]

/-- C3 (amended): the three budget-depleting reserves sum to at most
available_qty, and dotcom_reserve and retail_reserve are each
individually at most available_qty; the five together may exceed it. -/
theorem skuloc_reserve_caps (numSkus : Nat) (locs : List Nat)
    (ds : Nat → SkuDraw) (hv : ∀ s j, ValidCell ((ds s).cell j)) :
    ∀ r ∈ generate_skuloc_rows numSkus locs ds,
      r.ecomm_pick_reserve + r.ecomm_pack_reserve + r.merch_reserve_qty
          ≤ r.available_qty ∧
      r.dotcom_reserve ≤ r.available_qty ∧
      r.retail_reserve ≤ r.available_qty := by
  intro r hr
  obtain ⟨sku, _, p, _, rfl⟩ := mem_generate_skuloc_rows hr
  exact mkSkulocRow_reserve_facts sku p.2 _ (hv sku p.1)

/-- C3 witness for the amended theorem, on the same concrete run. -/
theorem skuloc_reserve_caps_witness :
    (mkSkulocRow 10000 1001 cellBad).ecomm_pick_reserve
        + (mkSkulocRow 10000 1001 cellBad).ecomm_pack_reserve
        + (mkSkulocRow 10000 1001 cellBad).merch_reserve_qty
      ≤ (mkSkulocRow 10000 1001 cellBad).available_qty ∧
    (mkSkulocRow 10000 1001 cellBad).dotcom_reserve
      ≤ (mkSkulocRow 10000 1001 cellBad).available_qty ∧
    (mkSkulocRow 10000 1001 cellBad).retail_reserve
      ≤ (mkSkulocRow 10000 1001 cellBad).available_qty :=
  skuloc_reserve_caps 1 (location_numbers 2) (fun _ => skuDrawBad)
    (fun _ _ => cellBad_valid) (mkSkulocRow 10000 1001 cellBad)
    (by rw [skuDrawBad_sample_row]; exact List.mem_singleton_self _)

/-- C7: every generated skuloc row references a location identifier in
the list produced by the location generator. -/
theorem skuloc_referential_integrity (n numSkus : Nat) (density : ℚ)
    (dl : Nat → LocDraw) (ds : Nat → SkuDraw)
    (hv : ∀ s, ValidSkuDraw
      ((generate_location_master_rows n dl).map (fun r => r.loc_number)) density (ds s)) :
    ∀ r ∈ generate_skuloc_rows numSkus
        ((generate_location_master_rows n dl).map (fun r => r.loc_number)) ds,
      r.location_number
        ∈ (generate_location_master_rows n dl).map (fun r => r.loc_number) := by
  intro r hr
  obtain ⟨sku, _, p, hp, rfl⟩ := mem_generate_skuloc_rows hr
  have hmem : p.2 ∈ (ds sku).sample := List.snd_mem_of_mem_enum hp
  exact (hv sku).2.2.2.2.1 p.2 hmem

/-- C7 witness: concrete two-location, one-product run. -/
theorem skuloc_referential_integrity_witness :
    (mkSkulocRow 10000 1001 cellBad).location_number
      ∈ (generate_location_master_rows 2 (fun _ => locDraw0)).map (fun r => r.loc_number) :=
  skuloc_referential_integrity 2 1 (7/10) (fun _ => locDraw0) (fun _ => skuDrawBad)
    (fun _ => by
      rw [show (generate_location_master_rows 2 (fun _ => locDraw0)).map
        (fun r => r.loc_number) = location_numbers 2 from rfl]
      exact skuDrawBad_valid)
    (mkSkulocRow 10000 1001 cellBad)
    (by
      rw [show generate_skuloc_rows 1 ((generate_location_master_rows 2
        (fun _ => locDraw0)).map (fun r => r.loc_number)) (fun _ => skuDrawBad)
        = [mkSkulocRow 10000 1001 cellBad] from rfl]
      exact List.mem_singleton_self _)

/-- C8: with 0 < density ≤ 1, the selected subset of each product has size
`⌊locationCount · uniform(0.1, density)⌋`, consists of distinct
locations, and never exceeds the location count; the generator emits
one row per (product, selected location) pair in product-then-location
order (an empty subset contributes zero rows), and the total row count
is the sum of the per-product subset sizes. -/
theorem skuloc_subset_selection (numSkus : Nat) (locs : List Nat) (density : ℚ)
    (hD0 : 0 < density) (hD1 : density ≤ 1) (ds : Nat → SkuDraw) (s : Nat)
    (hv : ValidSkuDraw locs density (ds s)) :
    ((ds s).sample.length = (⌊(locs.length : ℚ) * (ds s).u⌋).toNat ∧
      (ds s).sample.length ≤ locs.length ∧ (ds s).sample.Nodup) ∧
    (generate_skuloc_rows numSkus locs ds).map (fun r => (r.sku_id, r.location_number))
      = (sku_ids numSkus).flatMap (fun q => (ds q).sample.map (fun l => (q, l))) ∧
    (generate_skuloc_rows numSkus locs ds).length
      = ((sku_ids numSkus).map (fun q => (ds q).sample.length)).sum := by
  obtain ⟨hu_lo, hu_hi, hlen, hnodup, hmem, _⟩ := hv
  refine ⟨⟨hlen, ?_, hnodup⟩, ?_, ?_⟩
  · rw [hlen]
    have hu1 : (ds s).u ≤ 1 := le_trans hu_hi (max_le (by norm_num) hD1)
    have hprod : (locs.length : ℚ) * (ds s).u ≤ (locs.length : ℚ) :=
      mul_le_of_le_one_right (by positivity) hu1
    have hfloor : ⌊(locs.length : ℚ) * (ds s).u⌋ ≤ (locs.length : Int) := by
      calc ⌊(locs.length : ℚ) * (ds s).u⌋ ≤ ⌊(locs.length : ℚ)⌋ :=
            Int.floor_le_floor hprod
        _ = (locs.length : Int) := Int.floor_natCast _
    calc (⌊(locs.length : ℚ) * (ds s).u⌋).toNat
        ≤ ((locs.length : Int)).toNat := Int.toNat_le_toNat hfloor
      _ = locs.length := Int.toNat_natCast _
  · unfold generate_skuloc_rows
    rw [List.map_flatMap]
    refine List.flatMap_congr ?_  -- pointwise equality of inner lists
    intro q _
    rw [List.map_map]
    have hsnd : ((fun p : Nat × Nat => ((q, p.2) : Nat × Nat)) ∘
        fun p : Nat × Nat => p)
        = (fun l : Nat => (q, l)) ∘ Prod.snd := rfl
    calc List.map ((fun r : SkulocRow => (r.sku_id, r.location_number)) ∘
          fun p => mkSkulocRow q p.2 ((ds q).cell p.1)) (ds q).sample.enum
        = List.map ((fun l : Nat => (q, l)) ∘ Prod.snd) (ds q).sample.enum := rfl
      _ = List.map (fun l : Nat => (q, l)) (List.map Prod.snd (ds q).sample.enum) :=
          (List.map_map _ _ _).symm
      _ = List.map (fun l : Nat => (q, l)) (ds q).sample :=
          congrArg _ (List.enum_map_snd _)
  · unfold generate_skuloc_rows
    rw [List.length_flatMap]
    refine congrArg List.sum (List.map_congr_left ?_)
    intro q _
    simp [Function.comp, List.enum_length]

/-- C8 witness on the concrete run: one product, two locations,
density 0.7, subset of size ⌊2 · 0.5⌋ = 1. -/
theorem skuloc_subset_selection_witness :
    ((skuDrawBad.sample.length
        = (⌊((location_numbers 2).length : ℚ) * skuDrawBad.u⌋).toNat ∧
      skuDrawBad.sample.length ≤ (location_numbers 2).length ∧
      skuDrawBad.sample.Nodup) ∧
    (generate_skuloc_rows 1 (location_numbers 2) (fun _ => skuDrawBad)).map
        (fun r => (r.sku_id, r.location_number))
      = (sku_ids 1).flatMap (fun q => skuDrawBad.sample.map (fun l => (q, l))) ∧
    (generate_skuloc_rows 1 (location_numbers 2) (fun _ => skuDrawBad)).length
      = ((sku_ids 1).map (fun _ => skuDrawBad.sample.length)).sum) :=
  skuloc_subset_selection 1 (location_numbers 2) (7/10) (by norm_num) (by norm_num)
    (fun _ => skuDrawBad) 0 skuDrawBad_valid

/-! ### Helper lemmas for the reservation generator -/

theorem choiceAt_ok_mem {α : Type} {xs : List α} {i : Nat} {v : α}
    (h : choiceAt xs i = .ok v) : v ∈ xs := by
  cases xs with
  | nil => simp [choiceAt] at h
  | cons x t =>
    simp only [choiceAt, Except.ok.injEq] at h
    subst h
    rcases Nat.lt_or_ge i (x :: t).length with hlt | hge
    · rw [List.getD_eq_getElem _ _ hlt]
      exact List.getElem_mem hlt
    · rw [List.getD_eq_default _ _ hge]
      exact List.mem_cons_self x t

theorem choiceAt_nil {α : Type} (i : Nat) :
    choiceAt ([] : List α) i = .error () := rfl

/-- Every row of a successful reservation run is built by `mkRsvRow`
from the draw of some iteration index in the loop list, with a sku and
a location returned by the two `random.choice` calls. -/
theorem rsvehrLoop_ok_mem {skus locs : List Nat} {ds : Nat → RsvDraw} {now : Int} :
    ∀ {l : List Nat} {rows : List RsvRow},
      rsvehrLoop skus locs ds now l = .ok rows →
      ∀ r ∈ rows, ∃ i ∈ l, ∃ sku, ∃ loc,
        choiceAt skus (ds i).skuIdx = .ok sku ∧
        choiceAt locs (ds i).locIdx = .ok loc ∧
        r = mkRsvRow sku loc (ds i) now := by
  intro l
  induction l with
  | nil =>
    intro rows h r hr
    simp only [rsvehrLoop, Except.ok.injEq] at h
    subst h
    simp at hr
  | cons i rest ih =>
    intro rows h r hr
    simp only [rsvehrLoop] at h
    cases hsku : choiceAt skus (ds i).skuIdx with
    | error e => rw [hsku] at h; exact absurd h (by simp)
    | ok sku =>
      rw [hsku] at h
      cases hloc : choiceAt locs (ds i).locIdx with
      | error e => rw [hloc] at h; exact absurd h (by simp)
      | ok loc =>
        rw [hloc] at h
        cases hrec : rsvehrLoop skus locs ds now rest with
        | error e => rw [hrec] at h; exact absurd h (by simp)
        | ok rows2 =>
          rw [hrec] at h
          simp only [Except.ok.injEq] at h
          subst h
          rw [List.mem_cons] at hr
          rcases hr with rfl | hr
          · exact ⟨i, List.mem_cons_self i rest, sku, loc, hsku, hloc, rfl⟩
          · obtain ⟨j, hj, sku2, loc2, h1, h2, h3⟩ := ih hrec r hr
            exact ⟨j, List.mem_cons_of_mem i hj, sku2, loc2, h1, h2, h3⟩

theorem rsvehrLoop_ok_of_ne_nil {skus locs : List Nat} (ds : Nat → RsvDraw)
    (now : Int) (hs : skus ≠ []) (hl : locs ≠ []) :
    ∀ l : List Nat, ∃ rows, rsvehrLoop skus locs ds now l = .ok rows ∧
      rows.length = l.length := by
  intro l
  induction l with
  | nil => exact ⟨[], rfl, rfl⟩
  | cons i rest ih =>
    obtain ⟨rows, hok, hlen⟩ := ih
    cases skus with
    | nil => exact absurd rfl hs
    | cons a as =>
      cases locs with
      | nil => exact absurd rfl hl
      | cons b bs =>
        refine ⟨mkRsvRow ((a :: as).getD (ds i).skuIdx a)
          ((b :: bs).getD (ds i).locIdx b) (ds i) now :: rows, ?_, ?_⟩
        · simp only [rsvehrLoop, choiceAt, hok]
        · simp [hlen]

/-- With R ≥ 1 and an empty sku or location pool, the first call of
`random.choice` fails before any row is produced. -/
theorem generate_rsvehr_rows_error (numReserves : Nat) (skus locs : List Nat)
    (ds : Nat → RsvDraw) (now : Int) (hR : 1 ≤ numReserves)
    (h : skus = [] ∨ locs = []) :
    generate_rsvehr_rows numReserves skus locs ds now = .error () := by
  obtain ⟨R, rfl⟩ : ∃ R, numReserves = R + 1 :=
    ⟨numReserves - 1, by omega⟩
  unfold generate_rsvehr_rows
  rw [List.range'_succ]
  rcases h with rfl | rfl
  · simp only [rsvehrLoop, choiceAt]
  · simp only [rsvehrLoop]
    cases hsku : choiceAt skus (ds 1).skuIdx with
    | error e => rfl
    | ok sku => simp only [choiceAt]

/-! ### Reservation-row theorems -/

/-- C6: for every row of a successful reservation run with in-range
draws, the end timestamp is the start timestamp plus a whole number of
days, strictly after the start, with a gap between 1 and 14 days
inclusive. -/
theorem rsvehr_time_window (numReserves : Nat) (skus locs : List Nat)
    (ds : Nat → RsvDraw) (now : Int) (rows : List RsvRow)
    (hok : generate_rsvehr_rows numReserves skus locs ds now = .ok rows)
    (hv : ∀ i, ValidRsvDraw skus.length locs.length (ds i))
    (r : RsvRow) (hr : r ∈ rows) :
    r.hard_reservation_start_ts < r.hard_reservation_end_ts ∧
    r.hard_reservation_start_ts + 86400 ≤ r.hard_reservation_end_ts ∧
    r.hard_reservation_end_ts ≤ r.hard_reservation_start_ts + 14 * 86400 ∧
    (r.hard_reservation_end_ts - r.hard_reservation_start_ts) % 86400 = 0 := by
  unfold generate_rsvehr_rows at hok
  obtain ⟨i, _, sku, loc, _, _, rfl⟩ := rsvehrLoop_ok_mem hok r hr
  obtain ⟨_, _, _, hend1, hend14, _⟩ := hv i
  simp only [mkRsvRow]
  omega

/-- C6 witness: a concrete one-reservation run. -/
theorem rsvehr_time_window_witness :
    (mkRsvRow 10000 1001 rsvDraw0 0).hard_reservation_start_ts
      < (mkRsvRow 10000 1001 rsvDraw0 0).hard_reservation_end_ts ∧
    (mkRsvRow 10000 1001 rsvDraw0 0).hard_reservation_start_ts + 86400
      ≤ (mkRsvRow 10000 1001 rsvDraw0 0).hard_reservation_end_ts ∧
    (mkRsvRow 10000 1001 rsvDraw0 0).hard_reservation_end_ts
      ≤ (mkRsvRow 10000 1001 rsvDraw0 0).hard_reservation_start_ts + 14 * 86400 ∧
    ((mkRsvRow 10000 1001 rsvDraw0 0).hard_reservation_end_ts
      - (mkRsvRow 10000 1001 rsvDraw0 0).hard_reservation_start_ts) % 86400 = 0 :=
  rsvehr_time_window 1 [10000] [1001] (fun _ => rsvDraw0) 0
    [mkRsvRow 10000 1001 rsvDraw0 0] rfl (fun _ => rsvDraw0_valid)
    (mkRsvRow 10000 1001 rsvDraw0 0) (List.mem_singleton_self _)

/-- C10: the reservation generator fails (empty `random.choice` pool)
exactly when R ≥ 1 and the sku pool or the location pool is empty — in
that case before producing any row; a successful run has exactly R
rows; and a whole-artifact run with R ≥ 1 and a zero sku or location
count ends in an error carrying the truncated artifact text. -/
theorem rsvehr_empty_pool_characterization (numReserves : Nat)
    (skus locs : List Nat) (ds : Nat → RsvDraw) (now : Int)
    (cfg : Config) (dr : Draws) :
    (generate_rsvehr_rows numReserves skus locs ds now = .error ()
      ↔ 1 ≤ numReserves ∧ (skus = [] ∨ locs = [])) ∧
    (∀ rows, generate_rsvehr_rows numReserves skus locs ds now = .ok rows →
      rows.length = numReserves) ∧
    (1 ≤ cfg.num_reserves → (cfg.num_skus = 0 ∨ cfg.num_locations = 0) →
      ∃ truncated, generate_all cfg dr now = .error truncated) := by
  refine ⟨⟨?_, ?_⟩, ?_, ?_⟩
  · intro herr
    by_cases hR : 1 ≤ numReserves
    · refine ⟨hR, ?_⟩
      by_contra hpools
      push_neg at hpools
      obtain ⟨rows, hok, _⟩ :=
        rsvehrLoop_ok_of_ne_nil ds now hpools.1 hpools.2 (List.range' 1 numReserves)
      rw [generate_rsvehr_rows, hok] at herr
      exact absurd herr (by simp)
    · have h0 : numReserves = 0 := by omega
      subst h0
      exact absurd herr (by simp [generate_rsvehr_rows, rsvehrLoop])
  · intro ⟨hR, hpools⟩
    exact generate_rsvehr_rows_error numReserves skus locs ds now hR hpools
  · intro rows hok
    by_cases hs : skus = []
    · rcases numReserves with _ | R
      · simp only [generate_rsvehr_rows, List.range', rsvehrLoop,
          Except.ok.injEq] at hok
        rw [← hok]
        rfl
      · rw [generate_rsvehr_rows_error (R + 1) skus locs ds now (by omega)
          (Or.inl hs)] at hok
        exact absurd hok (by simp)
    · by_cases hl : locs = []
      · rcases numReserves with _ | R
        · simp only [generate_rsvehr_rows, List.range', rsvehrLoop,
            Except.ok.injEq] at hok
          rw [← hok]
          rfl
        · rw [generate_rsvehr_rows_error (R + 1) skus locs ds now (by omega)
            (Or.inr hl)] at hok
          exact absurd hok (by simp)
      · obtain ⟨rows2, hok2, hlen2⟩ :=
          rsvehrLoop_ok_of_ne_nil ds now hs hl (List.range' 1 numReserves)
        rw [generate_rsvehr_rows, hok2] at hok
        simp only [Except.ok.injEq] at hok
        subst hok
        rw [hlen2, List.length_range']
  · intro hR hzero
    have hpools : sku_ids cfg.num_skus = [] ∨
        (generate_location_master_rows cfg.num_locations dr.loc).map
          (fun r => r.loc_number) = [] := by
      rcases hzero with h | h
      · left; rw [h]; rfl
      · right; rw [h]; rfl
    have herr := generate_rsvehr_rows_error cfg.num_reserves _ _ dr.rsv now hR hpools
    unfold generate_all
    dsimp only
    rw [herr]
    exact ⟨_, rfl⟩

/-- C10 witness: empty pools with R = 1 error at the row level and at
the whole-artifact level. -/
theorem rsvehr_empty_pool_characterization_witness :
    generate_rsvehr_rows 1 ([] : List Nat) [1001] (fun _ => rsvDraw0) 0 = .error () ∧
    (∃ truncated, generate_all cfgBad draws0 0 = .error truncated) :=
  ⟨(rsvehr_empty_pool_characterization 1 [] [1001] (fun _ => rsvDraw0) 0
      cfgBad draws0).1.mpr ⟨le_refl 1, Or.inl rfl⟩,
   (rsvehr_empty_pool_characterization 1 [] [1001] (fun _ => rsvDraw0) 0
      cfgBad draws0).2.2 (le_refl 1) (Or.inl rfl)⟩

/-! ### Whole-run determinism -/

/-- C9 counterexample: two runs with identical configuration and
identical random draws but clock readings one second apart produce
different artifacts — the `Generated on:` header line (and any
reservation timestamps) embed `datetime.now()`, a third input beyond
configuration and random source. -/
theorem generate_all_depends_on_clock :
    generate_all cfg0 draws0 0 ≠ generate_all cfg0 draws0 1 := by
  intro h
  have h2 := congrArg Except.toOption h
  exact absurd h2 (by decide)

/-- C9 (amended): the generator is a pure function of the
configuration, the random draw stream, and the clock reading; two runs
agreeing on all three produce byte-identical artifacts. -/
theorem generate_all_deterministic (cfg1 cfg2 : Config) (d1 d2 : Draws)
    (t1 t2 : Int) (hc : cfg1 = cfg2) (hd : d1 = d2) (ht : t1 = t2) :
    generate_all cfg1 d1 t1 = generate_all cfg2 d2 t2 := by
  subst hc; subst hd; subst ht; rfl

/-- C9 witness for the amended theorem at a concrete run. -/
theorem generate_all_deterministic_witness :
    generate_all cfg0 draws0 0 = generate_all cfg0 draws0 0 :=
  generate_all_deterministic cfg0 cfg0 draws0 draws0 0 0 rfl rfl rfl

end ISM
